import Mathlib

set_option maxRecDepth 8192
set_option exponentiation.threshold 1100

/-!
Verification of the SKO GeoHydro Portal API (Express backend).

The repository contains two variants of the same server: a file-backed one
(`src/server.js`, JSON files under a data directory) and a document-store one
(`src/unnamed/part_000`, MongoDB Atlas).  Route handlers are pure functions of
the request body, the current clock reading and the stored collection, so we
embed them as Lean functions from those inputs to an HTTP response together
with the new collection state.

Conventions of the embedding:
* JavaScript runtime values that can appear in a JSON request body are the
  inductive `JsValue`; a destructured field that is absent from the body is
  `JsValue.undefined`, exactly as in JS.
* JS numbers are `JsNum`: either `nan` or an exact decimal, kept as a
  mantissa/scale pair.  The claims under study concern truthiness, defaulting
  and parse failure, never IEEE rounding or arithmetic, so an exact decimal
  carrier is faithful for every number the handlers construct or compare.
* every `new Date()` / `Date.now()` evaluation is its own `Nat` parameter
  (millisecond clock): a create performs three reads (`nowId` for the id,
  `nowC` for `createdAt`, `nowU` for `updatedAt`; the document-store create
  has no id read), a status update one.  `toISOString`-style serialisation
  of an instant is modelled by `Nat.repr`, an injective encoding.
* `parseFloat` covers the builtin's grammar on string inputs: leading
  spaces, optional sign, the `Infinity` keyword or a decimal literal with
  optional fraction and exponent; no digits consumed gives `JsNum.nan`, and
  magnitudes beyond the IEEE double range overflow to `JsNum.inf`.  Finite
  values are kept exact rather than rounded to doubles: the claims compare
  only identically-parsed values or test them against zero.
-/

/-- A JavaScript number: NaN, a signed Infinity, or the exact decimal
`m * 10 ^ (-k)`.  The mantissa/scale pair is the literal form a decimal
string denotes; the claims only ever compare numbers built the same way or
test them against zero, so no normalisation is needed. -/
inductive JsNum where
  | nan
  | inf (neg : Bool)
  | val (m : Int) (k : Nat)
deriving DecidableEq

/-- A JavaScript value as it can occur in a parsed JSON body or in a stored
record.  `undefined` is the value of a destructured field that the request
body does not contain. -/
inductive JsValue where
  | undefined
  | null
  | bool (b : Bool)
  | num (n : JsNum)
  | str (s : String)
deriving DecidableEq

/-- JavaScript truthiness: `undefined`, `null`, `false`, `0`, `NaN` and the
empty string are falsy, everything else is truthy. -/
def truthy : JsValue → Bool
  | .undefined => false
  | .null => false
  | .bool b => b
  | .num .nan => false
  | .num (.inf _) => true
  | .num (.val m _) => m != 0
  | .str s => s != ""

/-- The JS expression `a || b`: `a` when truthy, otherwise `b`. -/
def jsOr (a b : JsValue) : JsValue :=
  if truthy a then a else b

/-- Numeric value of a decimal digit character. -/
def digitVal (c : Char) : Nat := c.toNat - 48

/-- Value of a list of decimal digit characters, most significant first. -/
def valChars (cs : List Char) : Nat :=
  cs.foldl (fun a c => 10 * a + digitVal c) 0

/-- The smallest decimal magnitude that rounds to Infinity as an IEEE
double: `2 ^ 1024 - 2 ^ 970`, the halfway point above the largest finite
double (round half to even sends it up).  `parseFloat` of e.g. `"1e999"` or
a 310-digit literal overflows to Infinity at this threshold. -/
def overflowThreshold : Nat := 2 ^ 1024 - 2 ^ 970

/-- Fold a decimal exponent into a magnitude: `(M, k)` with exponent `e`
denotes `M * 10 ^ (e - k)`, rewritten as a plain mantissa/scale pair. -/
def applyExponent (M k : Nat) (e : Int) : Nat × Nat :=
  let shift : Int := e - k
  if 0 ≤ shift then (M * 10 ^ shift.toNat, 0) else (M, shift.natAbs)

/-- Package a parsed magnitude as a JS number: Infinity past the double
range, otherwise the signed exact decimal. -/
def signedVal (neg : Bool) (p : Nat × Nat) : JsNum :=
  if overflowThreshold * 10 ^ p.2 ≤ p.1 then .inf neg
  else .val (if neg then -(p.1 : Int) else (p.1 : Int)) p.2

/-- The exponent denoted after the mantissa's `e`/`E`: optional sign and
digits; 0 when the digits are missing, as `parseFloat` stops at the first
invalid character. -/
def parseExpAfterE (cs : List Char) : Int :=
  let sign : Bool × List Char :=
    match cs with
    | '-' :: r => (true, r)
    | '+' :: r => (false, r)
    | _ => (false, cs)
  let ds := sign.2.takeWhile Char.isDigit
  if ds.isEmpty then 0
  else if sign.1 then -(valChars ds : Int) else (valChars ds : Int)

/-- The optional exponent part following the digits of a decimal literal. -/
def parseExp : List Char → Int
  | 'e' :: rest => parseExpAfterE rest
  | 'E' :: rest => parseExpAfterE rest
  | _ => 0

/-- `parseFloat` on a string: skip leading spaces, optional sign, then
either the keyword `Infinity` or a decimal literal — integer digits,
optional `.` and fraction digits, optional exponent; NaN exactly when no
digit (and no `Infinity`) is consumed; magnitudes beyond the double range
overflow to Infinity. -/
def parseFloatStr (s : String) : JsNum :=
  let cs := s.data.dropWhile (fun c => c == ' ')
  let sign : Bool × List Char :=
    match cs with
    | '-' :: rest => (true, rest)
    | '+' :: rest => (false, rest)
    | _ => (false, cs)
  if List.isPrefixOf "Infinity".data sign.2 then .inf sign.1
  else
    let ip := sign.2.takeWhile Char.isDigit
    let rest := sign.2.dropWhile Char.isDigit
    match rest with
    | '.' :: afterDot =>
      let fp := afterDot.takeWhile Char.isDigit
      if ip.isEmpty && fp.isEmpty then .nan
      else signedVal sign.1 (applyExponent
        (valChars ip * 10 ^ fp.length + valChars fp) fp.length
        (parseExp (afterDot.dropWhile Char.isDigit)))
    | _ =>
      if ip.isEmpty then .nan
      else signedVal sign.1 (applyExponent (valChars ip) 0 (parseExp rest))

/-- `parseFloat` on a JS value: a number passes through (its string form
re-parses to itself), a string is parsed, and `undefined`, `null`, booleans
stringify to words that parse to NaN. -/
def parseFloat : JsValue → JsNum
  | .num n => n
  | .str s => parseFloatStr s
  | _ => .nan

/-- A stored Report record (`newReport` in both server variants).  Field
values coming from the request body stay `JsValue`; `id` is the string the
server generates; timestamps are clock readings. -/
structure Report where
  id : String
  type : JsValue
  location : JsValue
  coordinates : JsValue
  description : JsValue
  severity : JsValue
  email : JsValue
  phone : JsValue
  status : JsValue
  createdAt : Nat
  updatedAt : Nat
deriving DecidableEq

/-- The fields destructured from a POST /api/reports body. -/
structure ReportBody where
  type : JsValue
  location : JsValue
  coordinates : JsValue
  description : JsValue
  severity : JsValue
  email : JsValue
  phone : JsValue
deriving DecidableEq

/-- A JSON response body, generic in the record type of the resource. -/
inductive RespBody (α : Type) where
  | error (message : String)
  | message (message : String)
  | messageRecord (message : String) (record : α)
  | records (records : List α)
deriving DecidableEq

/-- An HTTP response: status code and JSON body. -/
abbrev Resp (α : Type) : Type := Nat × RespBody α

/-- The record `POST /api/reports` builds, minus the id assignment, which
differs between the variants (timestamp string vs database ObjectId).  The
source evaluates `new Date()` once for `createdAt` and again for
`updatedAt`, so the two stamps are separate clock reads `nowC` and `nowU`. -/
def mkReportFields (nowC nowU : Nat) (b : ReportBody) (id : String) : Report :=
  { id := id
    type := b.type
    location := b.location
    coordinates := jsOr b.coordinates (.str "")
    description := b.description
    severity := jsOr b.severity (.str "medium")
    email := jsOr b.email (.str "")
    phone := jsOr b.phone (.str "")
    status := .str "pending"
    createdAt := nowC
    updatedAt := nowU }

/-- File-backed variant: `id: Date.now().toString()`, a third clock read. -/
def mkReport (nowId nowC nowU : Nat) (b : ReportBody) : Report :=
  mkReportFields nowC nowU b (Nat.repr nowId)

/-- `POST /api/reports`, file-backed variant (src/server.js:61-95): reject
when a required field is falsy, otherwise prepend the new record and return
it with status 201.  `nowId`, `nowC`, `nowU` are the handler's three clock
reads (id, `createdAt`, `updatedAt`). -/
def postReport (nowId nowC nowU : Nat) (b : ReportBody)
    (reports : List Report) : Resp Report × List Report :=
  if !truthy b.type || !truthy b.location || !truthy b.description then
    ((400, .error "Missing required fields"), reports)
  else
    let newReport := mkReport nowId nowC nowU b
    ((201, .messageRecord "Report submitted successfully" newReport),
      newReport :: reports)

/-- `GET /api/reports`, file-backed variant: the file contents, verbatim. -/
def getReports (reports : List Report) : Resp Report :=
  (200, .records reports)

/-- The statuses accepted by `['pending','reviewed','resolved'].includes`. -/
def allowedStatuses : List JsValue :=
  [.str "pending", .str "reviewed", .str "resolved"]

/-- The mutation `PUT` applies to the found record: set `status`, refresh
`updatedAt`. -/
def setStatus (now : Nat) (status : JsValue) (r : Report) : Report :=
  { r with status := status, updatedAt := now }

/-- `findIndex` followed by in-place mutation of the found element: returns
the mutated record and the new list, or `none` when no element matches. -/
def updateFirst {α : Type} (p : α → Bool) (f : α → α) : List α → Option (α × List α)
  | [] => none
  | r :: rs =>
    if p r then some (f r, f r :: rs)
    else
      match updateFirst p f rs with
      | none => none
      | some (u, rs') => some (u, r :: rs')

/-- `PUT /api/reports/:id`, file-backed variant (src/server.js:98-126):
validate the status, find the record, mutate `status`/`updatedAt`, return the
updated record. -/
def putReport (now : Nat) (id : String) (status : JsValue)
    (reports : List Report) : Resp Report × List Report :=
  if !truthy status || !(allowedStatuses.contains status) then
    ((400, .error "Invalid status"), reports)
  else
    match updateFirst (fun r => r.id == id) (setStatus now status) reports with
    | none => ((404, .error "Report not found"), reports)
    | some (u, reports') =>
      ((200, .messageRecord "Report updated successfully" u), reports')

/-- `POST /api/reports`, document-store variant (src/unnamed/part_000:63-98):
same validation and field defaults with two `new Date()` reads; `insertOne`
appends to the collection and the database assigns the object id `oid`. -/
def mongoPostReport (oid : String) (nowC nowU : Nat) (b : ReportBody)
    (db : List Report) : Resp Report × List Report :=
  if !truthy b.type || !truthy b.location || !truthy b.description then
    ((400, .error "Missing required fields"), db)
  else
    let newReport := mkReportFields nowC nowU b oid
    ((201, .messageRecord "Report submitted successfully" newReport),
      db ++ [newReport])

/-- The id strings `new ObjectId(id)` accepts without throwing: a
24-character hexadecimal string (the driver also accepts ObjectId instances
and byte buffers, which a URL path parameter is not).  Any other string
makes the constructor throw. -/
def isValidObjectId (id : String) : Bool :=
  id.length == 24 && id.data.all fun c =>
    c.isDigit || ('a' ≤ c && c ≤ 'f') || ('A' ≤ c && c ≤ 'F')

/-- `PUT /api/reports/:id`, document-store variant (src/unnamed/part_000:
101-132): same status validation; `new ObjectId(id)` throws on a malformed
id, which the handler's catch converts to a 500 error; otherwise `updateOne`
with a `$set` on `status`/`updatedAt` — 404 when nothing matches, and on
success the response body carries only a message, no record. -/
def mongoPutReport (now : Nat) (id : String) (status : JsValue)
    (db : List Report) : Resp Report × List Report :=
  if !truthy status || !(allowedStatuses.contains status) then
    ((400, .error "Invalid status"), db)
  else if !isValidObjectId id then
    ((500, .error "Failed to update report"), db)
  else
    match updateFirst (fun r => r.id == id) (setStatus now status) db with
    | none => ((404, .error "Report not found"), db)
    | some (_, db') => ((200, .message "Report updated successfully"), db')

/-- Insert a record into a list sorted by `createdAt` descending, keeping the
sort. -/
def insertByCreatedDesc (r : Report) : List Report → List Report
  | [] => [r]
  | x :: xs =>
    if x.createdAt ≤ r.createdAt then r :: x :: xs
    else x :: insertByCreatedDesc r xs

/-- The `.sort({ createdAt: -1 })` the document store applies at query time. -/
def sortByCreatedDesc (db : List Report) : List Report :=
  db.foldr insertByCreatedDesc []

/-- `GET /api/reports`, document-store variant: all records sorted by
`createdAt` descending. -/
def mongoGetReports (db : List Report) : Resp Report :=
  (200, .records (sortByCreatedDesc db))

/-- One `POST /api/reports` request against the file-backed variant: the
three clock reads the handler performs, and the body. -/
structure CreateReq where
  nowId : Nat
  nowC : Nat
  nowU : Nat
  body : ReportBody
deriving DecidableEq

/-- State after a sequence of `POST /api/reports` requests against the
file-backed variant. -/
def insertAll (reqs : List CreateReq) (reports : List Report) :
    List Report :=
  reqs.foldl (fun s q => (postReport q.nowId q.nowC q.nowU q.body s).2) reports

/-- One `POST /api/reports` request against the document-store variant: the
object id the database assigns, the two clock reads, and the body. -/
structure MongoCreateReq where
  oid : String
  nowC : Nat
  nowU : Nat
  body : ReportBody
deriving DecidableEq

/-- State after a sequence of `POST /api/reports` requests against the
document-store variant. -/
def mongoInsertAll (reqs : List MongoCreateReq)
    (db : List Report) : List Report :=
  reqs.foldl (fun s q => (mongoPostReport q.oid q.nowC q.nowU q.body s).2) db

/-- A stored Coordinate record (`newCoordinate` in both variants). -/
structure Coordinate where
  id : String
  name : JsValue
  lat : JsValue
  lng : JsValue
  transparency : JsValue
  temperature : JsValue
  conductivity : JsValue
  waterlevel : JsValue
  pathogens : JsValue
  description : JsValue
  status : JsValue
  createdAt : Nat
  updatedAt : Nat
deriving DecidableEq

/-- The fields destructured from a POST /api/coordinates body. -/
structure CoordinateBody where
  name : JsValue
  lat : JsValue
  lng : JsValue
  transparency : JsValue
  temperature : JsValue
  conductivity : JsValue
  waterlevel : JsValue
  pathogens : JsValue
  description : JsValue
deriving DecidableEq

/-- The record `POST /api/coordinates` builds (src/server.js:169-183):
`lat`/`lng` always parsed; each optional measurement parsed when truthy and
`null` otherwise; `pathogens` defaults to `"Unknown"`, `description` to the
empty string.  As for reports, the id and the two timestamps come from three
separate clock reads. -/
def mkCoordinate (nowId nowC nowU : Nat) (b : CoordinateBody) : Coordinate :=
  { id := Nat.repr nowId
    name := b.name
    lat := .num (parseFloat b.lat)
    lng := .num (parseFloat b.lng)
    transparency :=
      if truthy b.transparency then .num (parseFloat b.transparency) else .null
    temperature :=
      if truthy b.temperature then .num (parseFloat b.temperature) else .null
    conductivity :=
      if truthy b.conductivity then .num (parseFloat b.conductivity) else .null
    waterlevel :=
      if truthy b.waterlevel then .num (parseFloat b.waterlevel) else .null
    pathogens := jsOr b.pathogens (.str "Unknown")
    description := jsOr b.description (.str "")
    status := .str "pending"
    createdAt := nowC
    updatedAt := nowU }

/-- `POST /api/coordinates`, file-backed variant (src/server.js:159-195). -/
def postCoordinate (nowId nowC nowU : Nat) (b : CoordinateBody)
    (coordinates : List Coordinate) : Resp Coordinate × List Coordinate :=
  if !truthy b.name || !truthy b.lat || !truthy b.lng then
    ((400, .error "Missing required fields: name, lat, lng"), coordinates)
  else
    let newCoordinate := mkCoordinate nowId nowC nowU b
    ((201, .messageRecord "Coordinates submitted successfully" newCoordinate),
      newCoordinate :: coordinates)

/-- The `$set` mutation of `PUT /api/coordinates/:id`. -/
def setStatusC (now : Nat) (status : JsValue) (c : Coordinate) : Coordinate :=
  { c with status := status, updatedAt := now }

/-- `PUT /api/coordinates/:id`, file-backed variant (src/server.js:198-226). -/
def putCoordinate (now : Nat) (id : String) (status : JsValue)
    (coordinates : List Coordinate) : Resp Coordinate × List Coordinate :=
  if !truthy status || !(allowedStatuses.contains status) then
    ((400, .error "Invalid status"), coordinates)
  else
    match updateFirst (fun c => c.id == id) (setStatusC now status) coordinates with
    | none => ((404, .error "Coordinate not found"), coordinates)
    | some (u, coordinates') =>
      ((200, .messageRecord "Coordinate updated successfully" u), coordinates')

/-- `GET /health`, file-backed variant (src/server.js:247-253).  The handler
never consults storage; the `storageOk` argument records the probe outcome
the claim speaks of, and the response ignores it. -/
def fileHealth (_storageOk : Bool) : Nat × String :=
  (200, "OK")

/-- `GET /health`, document-store variant (src/unnamed/part_000:266-282):
pings the admin database; OK on success, a 500 database error otherwise. -/
def mongoHealth (pingOk : Bool) : Nat × String :=
  if pingOk then (200, "OK") else (500, "Database Error")

/-!
JSON serialisation, for the file-backed `writeData`/`readData` pair
(src/server.js:29-46).  `writeData` is `JSON.stringify` of the array of
records; `readData` is `JSON.parse` of the same text.  We model the text form
of one record by the JSON object it denotes: an association list of keys and
`Json` values, in the key order of the object literal.  `JSON.stringify` omits
a key whose value is `undefined` and writes `null` for `NaN`; `JSON.parse`
restores fields by key, an absent key reading back as `undefined`.  Number
and string literals round-trip exactly, so they are carried as values.  A
stored timestamp is the `toISOString` text, modelled by the injective
`Nat.repr` encoding of the instant.
-/

/-- A parsed JSON value. -/
inductive Json where
  | null
  | bool (b : Bool)
  | num (n : JsNum)
  | str (s : String)
deriving DecidableEq

/-- `JSON.stringify` of a field value: `undefined` produces no entry, and
`NaN` and the infinities serialise as `null`. -/
def stringifyField : JsValue → Option Json
  | .undefined => none
  | .null => some .null
  | .bool b => some (.bool b)
  | .num .nan => some .null
  | .num (.inf _) => some .null
  | .num (.val m k) => some (.num (.val m k))
  | .str s => some (.str s)

/-- The JS value a parsed JSON value denotes. -/
def parsedJs : Json → JsValue
  | .null => .null
  | .bool b => .bool b
  | .num n => .num n
  | .str s => .str s

/-- The entry a key/value pair contributes to the serialised object. -/
def objField (k : String) (v : JsValue) : List (String × Json) :=
  match stringifyField v with
  | none => []
  | some j => [(k, j)]

/-- The serialised object for a list of key/value pairs, in order. -/
def objFields (kvs : List (String × JsValue)) : List (String × Json) :=
  kvs.foldr (fun kv acc => objField kv.1 kv.2 ++ acc) []

/-- Reading a field of a parsed JSON object: lookup by key, `undefined` when
the key is absent. -/
def fieldOf (o : List (String × Json)) (k : String) : JsValue :=
  match o.lookup k with
  | none => .undefined
  | some j => parsedJs j

/-- The `toISOString` text of an instant, as an injective encoding. -/
def isoString (n : Nat) : String := Nat.repr n

/-- Recovering the instant from its serialised text. -/
def isoVal (s : String) : Nat := valChars s.data

/-- The string a JS value holds (stored ids and timestamps are strings). -/
def strOf : JsValue → String
  | .str s => s
  | _ => ""

/-- The JSON object `JSON.stringify` writes for one Report, keys in the order
of the `newReport` object literal. -/
def stringifyReport (r : Report) : List (String × Json) :=
  ("id", .str r.id) ::
    (objFields [("type", r.type), ("location", r.location),
      ("coordinates", r.coordinates), ("description", r.description),
      ("severity", r.severity), ("email", r.email), ("phone", r.phone),
      ("status", r.status)]
    ++ [("createdAt", .str (isoString r.createdAt)),
        ("updatedAt", .str (isoString r.updatedAt))])

/-- The Report denoted by a parsed JSON object. -/
def parseReportObj (o : List (String × Json)) : Report :=
  { id := strOf (fieldOf o "id")
    type := fieldOf o "type"
    location := fieldOf o "location"
    coordinates := fieldOf o "coordinates"
    description := fieldOf o "description"
    severity := fieldOf o "severity"
    email := fieldOf o "email"
    phone := fieldOf o "phone"
    status := fieldOf o "status"
    createdAt := isoVal (strOf (fieldOf o "createdAt"))
    updatedAt := isoVal (strOf (fieldOf o "updatedAt")) }

/-- `writeData` on the reports file: the array of serialised records. -/
def writeDataReports (reports : List Report) : List (List (String × Json)) :=
  reports.map stringifyReport

/-- `readData` on the reports file: the records the parsed array denotes. -/
def readDataReports (os : List (List (String × Json))) : List Report :=
  os.map parseReportObj

/-- The JSON object written for one Coordinate, keys in the order of the
`newCoordinate` object literal. -/
def stringifyCoordinate (c : Coordinate) : List (String × Json) :=
  ("id", .str c.id) ::
    (objFields [("name", c.name), ("lat", c.lat), ("lng", c.lng),
      ("transparency", c.transparency), ("temperature", c.temperature),
      ("conductivity", c.conductivity), ("waterlevel", c.waterlevel),
      ("pathogens", c.pathogens), ("description", c.description),
      ("status", c.status)]
    ++ [("createdAt", .str (isoString c.createdAt)),
        ("updatedAt", .str (isoString c.updatedAt))])

/-- The Coordinate denoted by a parsed JSON object. -/
def parseCoordinateObj (o : List (String × Json)) : Coordinate :=
  { id := strOf (fieldOf o "id")
    name := fieldOf o "name"
    lat := fieldOf o "lat"
    lng := fieldOf o "lng"
    transparency := fieldOf o "transparency"
    temperature := fieldOf o "temperature"
    conductivity := fieldOf o "conductivity"
    waterlevel := fieldOf o "waterlevel"
    pathogens := fieldOf o "pathogens"
    description := fieldOf o "description"
    status := fieldOf o "status"
    createdAt := isoVal (strOf (fieldOf o "createdAt"))
    updatedAt := isoVal (strOf (fieldOf o "updatedAt")) }

/-- `writeData` on the coordinates file. -/
def writeDataCoordinates (coordinates : List Coordinate) :
    List (List (String × Json)) :=
  coordinates.map stringifyCoordinate

/-- `readData` on the coordinates file. -/
def readDataCoordinates (os : List (List (String × Json))) : List Coordinate :=
  os.map parseCoordinateObj

/-- A JS value that `JSON.stringify` and `JSON.parse` carry verbatim: every
value except `NaN` and the infinities (which all collapse to `null`). -/
def jsonSafe (v : JsValue) : Prop :=
  v ≠ .num .nan ∧ v ≠ .num (.inf false) ∧ v ≠ .num (.inf true)

/-- All body-derived fields of a Report survive serialisation. -/
def Report.jsonFaithful (r : Report) : Prop :=
  jsonSafe r.type ∧ jsonSafe r.location ∧ jsonSafe r.coordinates ∧
    jsonSafe r.description ∧ jsonSafe r.severity ∧
    jsonSafe r.email ∧ jsonSafe r.phone ∧ jsonSafe r.status

/-- All body-derived fields of a Coordinate survive serialisation. -/
def Coordinate.jsonFaithful (c : Coordinate) : Prop :=
  jsonSafe c.name ∧ jsonSafe c.lat ∧ jsonSafe c.lng ∧
    jsonSafe c.transparency ∧ jsonSafe c.temperature ∧
    jsonSafe c.conductivity ∧ jsonSafe c.waterlevel ∧
    jsonSafe c.pathogens ∧ jsonSafe c.description ∧
    jsonSafe c.status

instance : DecidablePred jsonSafe := fun _v =>
  inferInstanceAs (Decidable (_ ∧ _ ∧ _))

instance (r : Report) : Decidable r.jsonFaithful :=
  inferInstanceAs (Decidable (_ ∧ _))

instance (c : Coordinate) : Decidable c.jsonFaithful :=
  inferInstanceAs (Decidable (_ ∧ _))

/-!
Decimal digit strings, to invert `Nat.repr`: the server's record ids are
`Date.now().toString()`, so distinctness of ids reduces to injectivity of the
decimal printing of the clock value.
-/

/-- The decimal digit characters of `n`, most significant first: the list
`Nat.toDigits 10` produces, defined structurally. -/
def natDigits (n : Nat) : List Char :=
  if _h : n < 10 then [Nat.digitChar n]
  else natDigits (n / 10) ++ [Nat.digitChar (n % 10)]
decreasing_by exact Nat.div_lt_self (by omega) (by omega)

theorem digitVal_digitChar {m : Nat} (h : m < 10) :
    digitVal (Nat.digitChar m) = m := by
  interval_cases m <;> decide

theorem valChars_append (cs : List Char) (c : Char) :
    valChars (cs ++ [c]) = 10 * valChars cs + digitVal c := by
  simp [valChars, List.foldl_append]

theorem valChars_natDigits (n : Nat) : valChars (natDigits n) = n := by
  induction n using Nat.strong_induction_on with
  | _ n ih =>
    unfold natDigits
    split
    · next h =>
      simp [valChars, digitVal_digitChar h]
    · next h =>
      rw [valChars_append, ih (n / 10) (Nat.div_lt_self (by omega) (by omega)),
        digitVal_digitChar (Nat.mod_lt _ (by omega))]
      omega

theorem toDigitsCore_eq : ∀ (f n : Nat) (l : List Char), n < f →
    Nat.toDigitsCore 10 f n l = natDigits n ++ l := by
  intro f
  induction f with
  | zero => intro n l h; omega
  | succ f ih =>
    intro n l h
    by_cases h10 : n / 10 = 0
    · have hn : n < 10 := by omega
      simp [Nat.toDigitsCore, h10, natDigits, hn, Nat.mod_eq_of_lt hn]
    · have hrec : Nat.toDigitsCore 10 (f + 1) n l =
          Nat.toDigitsCore 10 f (n / 10) (Nat.digitChar (n % 10) :: l) := by
        simp [Nat.toDigitsCore, h10]
      rw [hrec, ih (n / 10) _ (by omega)]
      have hn : ¬ n < 10 := by omega
      conv_rhs => rw [natDigits]
      simp [hn]

theorem repr_data (n : Nat) : (Nat.repr n).data = natDigits n := by
  show (Nat.toDigits 10 n).asString.data = natDigits n
  rw [Nat.toDigits, toDigitsCore_eq (n + 1) n [] (by omega)]
  simp [List.asString]

/-- `Date.now().toString()` is injective in the clock reading: distinct
instants print to distinct id strings. -/
theorem natRepr_injective {m n : Nat} (h : Nat.repr m = Nat.repr n) : m = n := by
  have hd := congrArg String.data h
  rw [repr_data, repr_data] at hd
  calc m = valChars (natDigits m) := (valChars_natDigits m).symm
    _ = valChars (natDigits n) := by rw [hd]
    _ = n := valChars_natDigits n

theorem isoVal_isoString (n : Nat) : isoVal (isoString n) = n := by
  rw [isoString, isoVal, repr_data, valChars_natDigits]

/-- Success shape of `updateFirst`: the list splits at the first match, the
match is rewritten by `f`, everything else is untouched. -/
theorem updateFirst_some {α : Type} (p : α → Bool) (f : α → α) :
    ∀ (l : List α) (u : α) (l' : List α), updateFirst p f l = some (u, l') →
      ∃ pre r post, l = pre ++ r :: post ∧ p r = true ∧
        (∀ x ∈ pre, p x = false) ∧ u = f r ∧ l' = pre ++ f r :: post := by
  intro l
  induction l with
  | nil => intro u l' h; simp [updateFirst] at h
  | cons r rs ih =>
    intro u l' h
    by_cases hp : p r
    · simp [updateFirst, hp] at h
      exact ⟨[], r, rs, rfl, hp, by simp, h.1.symm, by simp [h.2.symm]⟩
    · cases hmatch : updateFirst p f rs with
      | none => simp [updateFirst, hp, hmatch] at h
      | some pr =>
        obtain ⟨u0, rs'⟩ := pr
        simp [updateFirst, hp, hmatch] at h
        obtain ⟨pre, r0, post, hsplit, hpr0, hpre, hu, hrs'⟩ :=
          ih u0 rs' hmatch
        refine ⟨r :: pre, r0, post, by simp [hsplit], hpr0, ?_, ?_, ?_⟩
        · intro x hx
          rcases List.mem_cons.mp hx with hx | hx
          · simpa [hx] using hp
          · exact hpre x hx
        · rw [← h.1, hu]
        · rw [← h.2, hrs']
          simp

/-- `updateFirst` misses exactly when no element matches. -/
theorem updateFirst_none {α : Type} (p : α → Bool) (f : α → α) :
    ∀ l : List α, (∀ x ∈ l, p x = false) → updateFirst p f l = none := by
  intro l
  induction l with
  | nil => intro _; rfl
  | cons r rs ih =>
    intro h
    have hr : p r = false := h r (by simp)
    rw [updateFirst, if_neg (by simp [hr]), ih fun x hx => h x (by simp [hx])]

theorem insertByCreatedDesc_min (r : Report) :
    ∀ l : List Report, (∀ x ∈ l, r.createdAt < x.createdAt) →
      insertByCreatedDesc r l = l ++ [r] := by
  intro l
  induction l with
  | nil => intro _; rfl
  | cons x xs ih =>
    intro h
    have hx : r.createdAt < x.createdAt := h x (by simp)
    rw [insertByCreatedDesc, if_neg (by omega),
      ih fun y hy => h y (by simp [hy])]
    simp

/-- Sorting by `createdAt` descending a list whose timestamps strictly
increase reverses it. -/
theorem sortByCreatedDesc_increasing :
    ∀ l : List Report, l.Pairwise (fun a b => a.createdAt < b.createdAt) →
      sortByCreatedDesc l = l.reverse := by
  intro l
  induction l with
  | nil => intro _; rfl
  | cons a t ih =>
    intro h
    obtain ⟨ha, ht⟩ := List.pairwise_cons.mp h
    show insertByCreatedDesc a (sortByCreatedDesc t) = (a :: t).reverse
    rw [ih ht, insertByCreatedDesc_min a t.reverse
      fun x hx => ha x (List.mem_reverse.mp hx)]
    simp

/-- The presence check of `POST /api/reports` as a predicate. -/
def validReportBody (b : ReportBody) : Bool :=
  truthy b.type && truthy b.location && truthy b.description

theorem postReport_valid {b : ReportBody} (h : validReportBody b = true)
    (nowId nowC nowU : Nat) (reports : List Report) :
    postReport nowId nowC nowU b reports =
      ((201, .messageRecord "Report submitted successfully"
          (mkReport nowId nowC nowU b)),
        mkReport nowId nowC nowU b :: reports) := by
  simp only [validReportBody, Bool.and_eq_true] at h
  simp [postReport, h.1.1, h.1.2, h.2]

theorem mongoPostReport_valid {b : ReportBody} (h : validReportBody b = true)
    (oid : String) (nowC nowU : Nat) (db : List Report) :
    mongoPostReport oid nowC nowU b db =
      ((201, .messageRecord "Report submitted successfully"
          (mkReportFields nowC nowU b oid)),
        db ++ [mkReportFields nowC nowU b oid]) := by
  simp only [validReportBody, Bool.and_eq_true] at h
  simp [mongoPostReport, h.1.1, h.1.2, h.2]

theorem insertAll_eq :
    ∀ (reqs : List CreateReq) (s : List Report),
      (∀ q ∈ reqs, validReportBody q.body = true) →
      insertAll reqs s =
        (reqs.map fun q => mkReport q.nowId q.nowC q.nowU q.body).reverse
          ++ s := by
  intro reqs
  induction reqs with
  | nil => intro s _; rfl
  | cons q rest ih =>
    intro s h
    calc insertAll (q :: rest) s
        = insertAll rest (mkReport q.nowId q.nowC q.nowU q.body :: s) := by
          rw [show insertAll (q :: rest) s =
            insertAll rest (postReport q.nowId q.nowC q.nowU q.body s).2
            from rfl,
            postReport_valid (h q (by simp))]
      _ = (rest.map fun p => mkReport p.nowId p.nowC p.nowU p.body).reverse ++
            (mkReport q.nowId q.nowC q.nowU q.body :: s) :=
          ih _ fun x hx => h x (by simp [hx])
      _ = ((q :: rest).map
            fun p => mkReport p.nowId p.nowC p.nowU p.body).reverse ++ s := by
          simp

theorem mongoInsertAll_eq :
    ∀ (reqs : List MongoCreateReq) (db : List Report),
      (∀ q ∈ reqs, validReportBody q.body = true) →
      mongoInsertAll reqs db =
        db ++ reqs.map fun q => mkReportFields q.nowC q.nowU q.body q.oid := by
  intro reqs
  induction reqs with
  | nil => intro db _; simp [mongoInsertAll]
  | cons q rest ih =>
    intro db h
    calc mongoInsertAll (q :: rest) db
        = mongoInsertAll rest
            (db ++ [mkReportFields q.nowC q.nowU q.body q.oid]) := by
          rw [show mongoInsertAll (q :: rest) db =
            mongoInsertAll rest
              (mongoPostReport q.oid q.nowC q.nowU q.body db).2 from rfl,
            mongoPostReport_valid (h q (by simp))]
      _ = (db ++ [mkReportFields q.nowC q.nowU q.body q.oid]) ++
            rest.map fun p => mkReportFields p.nowC p.nowU p.body p.oid :=
          ih _ fun x hx => h x (by simp [hx])
      _ = db ++ (q :: rest).map
            fun p => mkReportFields p.nowC p.nowU p.body p.oid := by
          simp

theorem lookup_objField_none {k k' : String} (v : JsValue)
    (h : (k == k') = false) : (objField k' v).lookup k = none := by
  cases hv : stringifyField v <;> simp [objField, hv, List.lookup, h]

theorem lookup_append_eq {o₁ o₂ : List (String × Json)} {k : String}
    (h : o₁.lookup k = none) : (o₁ ++ o₂).lookup k = o₂.lookup k := by
  induction o₁ with
  | nil => simp
  | cons p o ih =>
    obtain ⟨k', j⟩ := p
    cases hk : k == k' with
    | true => simp [List.lookup, hk] at h
    | false =>
      simp only [List.lookup, List.cons_append, hk] at h ⊢
      exact ih h

theorem lookup_objFields_none {k : String} :
    ∀ kvs : List (String × JsValue), (∀ p ∈ kvs, (k == p.1) = false) →
      (objFields kvs).lookup k = none := by
  intro kvs
  induction kvs with
  | nil => intro _; rfl
  | cons kv rest ih =>
    intro h
    show (objField kv.1 kv.2 ++ objFields rest).lookup k = none
    rw [lookup_append_eq (lookup_objField_none kv.2 (h kv (by simp)))]
    exact ih fun p hp => h p (by simp [hp])

theorem fieldOf_append_eq {o₁ o₂ : List (String × Json)} {k : String}
    (h : o₁.lookup k = none) : fieldOf (o₁ ++ o₂) k = fieldOf o₂ k := by
  unfold fieldOf
  rw [lookup_append_eq h]

theorem fieldOf_cons_ne {p : String × Json} {o : List (String × Json)}
    {k : String} (h : (k == p.1) = false) : fieldOf (p :: o) k = fieldOf o k := by
  obtain ⟨k', j⟩ := p
  simp only at h
  simp [fieldOf, List.lookup, h]

theorem fieldOf_objField_at {k : String} {v : JsValue}
    {rest : List (String × Json)} (hrest : rest.lookup k = none)
    (hsafe : jsonSafe v) : fieldOf (objField k v ++ rest) k = v := by
  cases v with
  | undefined => simp [objField, stringifyField, fieldOf, hrest]
  | null => simp [objField, stringifyField, fieldOf, List.lookup, parsedJs]
  | bool b => simp [objField, stringifyField, fieldOf, List.lookup, parsedJs]
  | num n =>
    cases n with
    | nan => exact absurd rfl hsafe.1
    | inf b =>
      cases b with
      | false => exact absurd rfl hsafe.2.1
      | true => exact absurd rfl hsafe.2.2
    | val m k => simp [objField, stringifyField, fieldOf, List.lookup, parsedJs]
  | str s => simp [objField, stringifyField, fieldOf, List.lookup, parsedJs]

theorem objFields_append (kvs₁ kvs₂ : List (String × JsValue)) :
    objFields (kvs₁ ++ kvs₂) = objFields kvs₁ ++ objFields kvs₂ := by
  induction kvs₁ with
  | nil => rfl
  | cons kv rest ih =>
    show objField kv.1 kv.2 ++ objFields (rest ++ kvs₂) =
      (objField kv.1 kv.2 ++ objFields rest) ++ objFields kvs₂
    rw [ih, List.append_assoc]

theorem fieldOf_objFields_at {k : String} {v : JsValue}
    (kvs₁ kvs₂ : List (String × JsValue)) (tail : List (String × Json))
    (h₁ : ∀ p ∈ kvs₁, (k == p.1) = false)
    (h₂ : (objFields kvs₂ ++ tail).lookup k = none)
    (hsafe : jsonSafe v) :
    fieldOf (objFields (kvs₁ ++ (k, v) :: kvs₂) ++ tail) k = v := by
  rw [objFields_append,
    show objFields ((k, v) :: kvs₂) = objField k v ++ objFields kvs₂ from rfl,
    List.append_assoc, List.append_assoc,
    fieldOf_append_eq (lookup_objFields_none kvs₁ h₁)]
  exact fieldOf_objField_at h₂ hsafe

theorem parseReport_roundtrip (r : Report) (h : r.jsonFaithful) :
    parseReportObj (stringifyReport r) = r := by
  obtain ⟨h1, h2, h3, h4, h5, h6, h7, h8⟩ := h
  have tailNone : ∀ k : String, (k == "createdAt") = false →
      (k == "updatedAt") = false →
      (([("createdAt", Json.str (isoString r.createdAt)),
         ("updatedAt", Json.str (isoString r.updatedAt))] :
        List (String × Json)).lookup k) = none := by
    intro k hk1 hk2
    simp [List.lookup, hk1, hk2]
  have hid : fieldOf (stringifyReport r) "id" = .str r.id := by
    simp [stringifyReport, fieldOf, List.lookup, parsedJs]
  have htype : fieldOf (stringifyReport r) "type" = r.type := by
    rw [stringifyReport, fieldOf_cons_ne (by simp)]
    refine fieldOf_objFields_at [] _ _ (by simp) ?_ h1
    rw [lookup_append_eq (lookup_objFields_none _ (by simp))]
    exact tailNone _ (by decide) (by decide)
  have hloc : fieldOf (stringifyReport r) "location" = r.location := by
    rw [stringifyReport, fieldOf_cons_ne (by simp)]
    refine fieldOf_objFields_at [("type", r.type)] _ _ (by simp) ?_ h2
    rw [lookup_append_eq (lookup_objFields_none _ (by simp))]
    exact tailNone _ (by decide) (by decide)
  have hcoor : fieldOf (stringifyReport r) "coordinates" = r.coordinates := by
    rw [stringifyReport, fieldOf_cons_ne (by simp)]
    refine fieldOf_objFields_at [("type", r.type), ("location", r.location)]
      _ _ (by simp) ?_ h3
    rw [lookup_append_eq (lookup_objFields_none _ (by simp))]
    exact tailNone _ (by decide) (by decide)
  have hdesc : fieldOf (stringifyReport r) "description" = r.description := by
    rw [stringifyReport, fieldOf_cons_ne (by simp)]
    refine fieldOf_objFields_at
      [("type", r.type), ("location", r.location),
        ("coordinates", r.coordinates)] _ _ (by simp) ?_ h4
    rw [lookup_append_eq (lookup_objFields_none _ (by simp))]
    exact tailNone _ (by decide) (by decide)
  have hsev : fieldOf (stringifyReport r) "severity" = r.severity := by
    rw [stringifyReport, fieldOf_cons_ne (by simp)]
    refine fieldOf_objFields_at
      [("type", r.type), ("location", r.location),
        ("coordinates", r.coordinates), ("description", r.description)]
      _ _ (by simp) ?_ h5
    rw [lookup_append_eq (lookup_objFields_none _ (by simp))]
    exact tailNone _ (by decide) (by decide)
  have hemail : fieldOf (stringifyReport r) "email" = r.email := by
    rw [stringifyReport, fieldOf_cons_ne (by simp)]
    refine fieldOf_objFields_at
      [("type", r.type), ("location", r.location),
        ("coordinates", r.coordinates), ("description", r.description),
        ("severity", r.severity)] _ _ (by simp) ?_ h6
    rw [lookup_append_eq (lookup_objFields_none _ (by simp))]
    exact tailNone _ (by decide) (by decide)
  have hphone : fieldOf (stringifyReport r) "phone" = r.phone := by
    rw [stringifyReport, fieldOf_cons_ne (by simp)]
    refine fieldOf_objFields_at
      [("type", r.type), ("location", r.location),
        ("coordinates", r.coordinates), ("description", r.description),
        ("severity", r.severity), ("email", r.email)] _ _ (by simp) ?_ h7
    rw [lookup_append_eq (lookup_objFields_none _ (by simp))]
    exact tailNone _ (by decide) (by decide)
  have hstat : fieldOf (stringifyReport r) "status" = r.status := by
    rw [stringifyReport, fieldOf_cons_ne (by simp)]
    refine fieldOf_objFields_at
      [("type", r.type), ("location", r.location),
        ("coordinates", r.coordinates), ("description", r.description),
        ("severity", r.severity), ("email", r.email), ("phone", r.phone)]
      _ _ (by simp) ?_ h8
    exact tailNone _ (by decide) (by decide)
  have hca : fieldOf (stringifyReport r) "createdAt" =
      .str (isoString r.createdAt) := by
    rw [stringifyReport, fieldOf_cons_ne (by simp),
      fieldOf_append_eq (lookup_objFields_none _ (by simp))]
    simp [fieldOf, List.lookup, parsedJs]
  have hua : fieldOf (stringifyReport r) "updatedAt" =
      .str (isoString r.updatedAt) := by
    rw [stringifyReport, fieldOf_cons_ne (by simp),
      fieldOf_append_eq (lookup_objFields_none _ (by simp))]
    have e : ("updatedAt" == "createdAt") = false := by decide
    simp [fieldOf, List.lookup, e, parsedJs]
  simp [parseReportObj, hid, htype, hloc, hcoor, hdesc, hsev, hemail,
    hphone, hstat, hca, hua, strOf, isoVal_isoString]

theorem readData_writeData_reports :
    ∀ rs : List Report, (∀ r ∈ rs, r.jsonFaithful) →
      readDataReports (writeDataReports rs) = rs := by
  intro rs
  induction rs with
  | nil => intro _; rfl
  | cons r t ih =>
    intro h
    show parseReportObj (stringifyReport r) ::
      readDataReports (writeDataReports t) = r :: t
    rw [parseReport_roundtrip r (h r (by simp)),
      ih fun x hx => h x (by simp [hx])]

theorem parseCoordinate_roundtrip (c : Coordinate) (h : c.jsonFaithful) :
    parseCoordinateObj (stringifyCoordinate c) = c := by
  obtain ⟨h1, h2, h3, h4, h5, h6, h7, h8, h9, h10⟩ := h
  have tailNone : ∀ k : String, (k == "createdAt") = false →
      (k == "updatedAt") = false →
      (([("createdAt", Json.str (isoString c.createdAt)),
         ("updatedAt", Json.str (isoString c.updatedAt))] :
        List (String × Json)).lookup k) = none := by
    intro k hk1 hk2
    simp [List.lookup, hk1, hk2]
  have hid : fieldOf (stringifyCoordinate c) "id" = .str c.id := by
    simp [stringifyCoordinate, fieldOf, List.lookup, parsedJs]
  have hname : fieldOf (stringifyCoordinate c) "name" = c.name := by
    rw [stringifyCoordinate, fieldOf_cons_ne (by simp)]
    refine fieldOf_objFields_at [] _ _ (by simp) ?_ h1
    rw [lookup_append_eq (lookup_objFields_none _ (by simp))]
    exact tailNone _ (by decide) (by decide)
  have hlat : fieldOf (stringifyCoordinate c) "lat" = c.lat := by
    rw [stringifyCoordinate, fieldOf_cons_ne (by simp)]
    refine fieldOf_objFields_at [("name", c.name)] _ _ (by simp) ?_ h2
    rw [lookup_append_eq (lookup_objFields_none _ (by simp))]
    exact tailNone _ (by decide) (by decide)
  have hlng : fieldOf (stringifyCoordinate c) "lng" = c.lng := by
    rw [stringifyCoordinate, fieldOf_cons_ne (by simp)]
    refine fieldOf_objFields_at [("name", c.name), ("lat", c.lat)]
      _ _ (by simp) ?_ h3
    rw [lookup_append_eq (lookup_objFields_none _ (by simp))]
    exact tailNone _ (by decide) (by decide)
  have htra : fieldOf (stringifyCoordinate c) "transparency" =
      c.transparency := by
    rw [stringifyCoordinate, fieldOf_cons_ne (by simp)]
    refine fieldOf_objFields_at
      [("name", c.name), ("lat", c.lat), ("lng", c.lng)] _ _ (by simp) ?_ h4
    rw [lookup_append_eq (lookup_objFields_none _ (by simp))]
    exact tailNone _ (by decide) (by decide)
  have htem : fieldOf (stringifyCoordinate c) "temperature" =
      c.temperature := by
    rw [stringifyCoordinate, fieldOf_cons_ne (by simp)]
    refine fieldOf_objFields_at
      [("name", c.name), ("lat", c.lat), ("lng", c.lng),
        ("transparency", c.transparency)] _ _ (by simp) ?_ h5
    rw [lookup_append_eq (lookup_objFields_none _ (by simp))]
    exact tailNone _ (by decide) (by decide)
  have hcon : fieldOf (stringifyCoordinate c) "conductivity" =
      c.conductivity := by
    rw [stringifyCoordinate, fieldOf_cons_ne (by simp)]
    refine fieldOf_objFields_at
      [("name", c.name), ("lat", c.lat), ("lng", c.lng),
        ("transparency", c.transparency), ("temperature", c.temperature)]
      _ _ (by simp) ?_ h6
    rw [lookup_append_eq (lookup_objFields_none _ (by simp))]
    exact tailNone _ (by decide) (by decide)
  have hwat : fieldOf (stringifyCoordinate c) "waterlevel" =
      c.waterlevel := by
    rw [stringifyCoordinate, fieldOf_cons_ne (by simp)]
    refine fieldOf_objFields_at
      [("name", c.name), ("lat", c.lat), ("lng", c.lng),
        ("transparency", c.transparency), ("temperature", c.temperature),
        ("conductivity", c.conductivity)] _ _ (by simp) ?_ h7
    rw [lookup_append_eq (lookup_objFields_none _ (by simp))]
    exact tailNone _ (by decide) (by decide)
  have hpat : fieldOf (stringifyCoordinate c) "pathogens" = c.pathogens := by
    rw [stringifyCoordinate, fieldOf_cons_ne (by simp)]
    refine fieldOf_objFields_at
      [("name", c.name), ("lat", c.lat), ("lng", c.lng),
        ("transparency", c.transparency), ("temperature", c.temperature),
        ("conductivity", c.conductivity), ("waterlevel", c.waterlevel)]
      _ _ (by simp) ?_ h8
    rw [lookup_append_eq (lookup_objFields_none _ (by simp))]
    exact tailNone _ (by decide) (by decide)
  have hdes : fieldOf (stringifyCoordinate c) "description" =
      c.description := by
    rw [stringifyCoordinate, fieldOf_cons_ne (by simp)]
    refine fieldOf_objFields_at
      [("name", c.name), ("lat", c.lat), ("lng", c.lng),
        ("transparency", c.transparency), ("temperature", c.temperature),
        ("conductivity", c.conductivity), ("waterlevel", c.waterlevel),
        ("pathogens", c.pathogens)] _ _ (by simp) ?_ h9
    rw [lookup_append_eq (lookup_objFields_none _ (by simp))]
    exact tailNone _ (by decide) (by decide)
  have hsta : fieldOf (stringifyCoordinate c) "status" = c.status := by
    rw [stringifyCoordinate, fieldOf_cons_ne (by simp)]
    refine fieldOf_objFields_at
      [("name", c.name), ("lat", c.lat), ("lng", c.lng),
        ("transparency", c.transparency), ("temperature", c.temperature),
        ("conductivity", c.conductivity), ("waterlevel", c.waterlevel),
        ("pathogens", c.pathogens), ("description", c.description)]
      _ _ (by simp) ?_ h10
    exact tailNone _ (by decide) (by decide)
  have hca : fieldOf (stringifyCoordinate c) "createdAt" =
      .str (isoString c.createdAt) := by
    rw [stringifyCoordinate, fieldOf_cons_ne (by simp),
      fieldOf_append_eq (lookup_objFields_none _ (by simp))]
    simp [fieldOf, List.lookup, parsedJs]
  have hua : fieldOf (stringifyCoordinate c) "updatedAt" =
      .str (isoString c.updatedAt) := by
    rw [stringifyCoordinate, fieldOf_cons_ne (by simp),
      fieldOf_append_eq (lookup_objFields_none _ (by simp))]
    have e : ("updatedAt" == "createdAt") = false := by decide
    simp [fieldOf, List.lookup, e, parsedJs]
  simp [parseCoordinateObj, hid, hname, hlat, hlng, htra, htem, hcon,
    hwat, hpat, hdes, hsta, hca, hua, strOf, isoVal_isoString]

theorem readData_writeData_coordinates :
    ∀ cs : List Coordinate, (∀ c ∈ cs, c.jsonFaithful) →
      readDataCoordinates (writeDataCoordinates cs) = cs := by
  intro cs
  induction cs with
  | nil => intro _; rfl
  | cons c t ih =>
    intro h
    show parseCoordinateObj (stringifyCoordinate c) ::
      readDataCoordinates (writeDataCoordinates t) = c :: t
    rw [parseCoordinate_roundtrip c (h c (by simp)),
      ih fun x hx => h x (by simp [hx])]

theorem postCoordinate_valid {b : CoordinateBody}
    (h : (truthy b.name && truthy b.lat && truthy b.lng) = true)
    (nowId nowC nowU : Nat) (coordinates : List Coordinate) :
    postCoordinate nowId nowC nowU b coordinates =
      ((201, .messageRecord "Coordinates submitted successfully"
          (mkCoordinate nowId nowC nowU b)),
        mkCoordinate nowId nowC nowU b :: coordinates) := by
  simp only [Bool.and_eq_true] at h
  simp [postCoordinate, h.1.1, h.1.2, h.2]

/-- Frame of the shared update core: the matched record gets exactly
`status`/`updatedAt` rewritten, the rest of the list is untouched. -/
theorem putCore_frame {now : Nat} {s : JsValue} {l l' : List Report}
    {p : Report → Bool} {u : Report}
    (hm : updateFirst p (setStatus now s) l = some (u, l')) :
    ∃ pre r post, l = pre ++ r :: post ∧
      u = { r with status := s, updatedAt := now } ∧
      l' = pre ++ { r with status := s, updatedAt := now } :: post := by
  obtain ⟨pre, r, post, hsplit, _, _, hu, hl⟩ :=
    updateFirst_some _ _ _ _ _ hm
  exact ⟨pre, r, post, hsplit, hu, hl⟩

/-- Status updates touch no id, in order: file-backed reports. -/
theorem putReport_ids (now : Nat) (id : String) (s : JsValue)
    (reports : List Report) :
    (putReport now id s reports).2.map Report.id = reports.map Report.id := by
  by_cases hv : (!truthy s || !(allowedStatuses.contains s)) = true
  · rw [putReport, if_pos hv]
  · rw [putReport, if_neg hv]
    cases hm : updateFirst (fun r => r.id == id) (setStatus now s) reports with
    | none => rfl
    | some pr =>
      obtain ⟨u, l'⟩ := pr
      obtain ⟨pre, r, post, hsplit, _, hl⟩ := putCore_frame hm
      subst hsplit
      simp [hl]

/-- Status updates touch no id, in order: file-backed coordinates. -/
theorem putCoordinate_ids (now : Nat) (id : String) (s : JsValue)
    (coordinates : List Coordinate) :
    (putCoordinate now id s coordinates).2.map Coordinate.id =
      coordinates.map Coordinate.id := by
  by_cases hv : (!truthy s || !(allowedStatuses.contains s)) = true
  · rw [putCoordinate, if_pos hv]
  · rw [putCoordinate, if_neg hv]
    cases hm : updateFirst (fun c => c.id == id) (setStatusC now s)
      coordinates with
    | none => rfl
    | some pr =>
      obtain ⟨u, l'⟩ := pr
      obtain ⟨pre, r, post, hsplit, _, _, _, hl⟩ :=
        updateFirst_some _ _ _ _ _ hm
      subst hsplit
      simp [hl, setStatusC]

/-- The Report body of spec example 1: `{type, location, description}`. -/
def sampleReportBody : ReportBody :=
  ⟨.str "spill", .str "River X", .undefined, .str "oil sheen",
    .undefined, .undefined, .undefined⟩

/-- A second Report body, distinct from `sampleReportBody`. -/
def sampleReportBody2 : ReportBody :=
  ⟨.str "dumping", .str "Lake Y", .undefined, .str "debris",
    .undefined, .undefined, .undefined⟩

/-- The Coordinate body of spec example 5: `{name, lat, lng}` only. -/
def sampleCoordinateBody : CoordinateBody :=
  ⟨.str "Lake A", .str "44.5", .str "-73.2", .undefined, .undefined,
    .undefined, .undefined, .undefined, .undefined⟩

/-- A well-formed ObjectId string (24 hexadecimal characters). -/
def sampleOid : String := "507f1f77bcf86cd799439011"

/-- A second well-formed ObjectId string. -/
def sampleOid2 : String := "507f191e810c19729de860ea"

/-- A stored record carrying `sampleOid`, as a document-store insert (or a
file-store entry) would hold it. -/
def sampleStoredReport : Report :=
  mkReportFields 1 1 sampleReportBody sampleOid

/-- C1 counterexample: `createdAt` and `updatedAt` come from two separate
`new Date()` evaluations (src/server.js:81-82); when a millisecond tick
falls between them the stored record has `createdAt ≠ updatedAt`, so the
claimed equality is not guaranteed by the code.  Here the two reads are the
instants 5 and 6. -/
theorem C1_counterexample :
    ∃ r : Report,
      (postReport 5 5 6 sampleReportBody []).1 =
        (201, .messageRecord "Report submitted successfully" r) ∧
      r.createdAt ≠ r.updatedAt := by
  exact ⟨mkReport 5 5 6 sampleReportBody, by decide, by decide⟩

/-- C1 amended: for every valid create request, POST /api/reports returns
201 with the new record, which has status `"pending"`, severity defaulting
to `"medium"`, coordinates/email/phone defaulting to the empty string when
absent; `createdAt` and `updatedAt` carry the two respective `new Date()`
readings, so they are equal exactly when no millisecond tick falls between
the two calls. -/
theorem C1_amended_create_defaults (nowId nowC nowU : Nat) (b : ReportBody)
    (reports : List Report)
    (h : truthy b.type = true ∧ truthy b.location = true ∧
      truthy b.description = true) :
    ∃ r : Report,
      postReport nowId nowC nowU b reports =
        ((201, .messageRecord "Report submitted successfully" r),
          r :: reports) ∧
      r.status = .str "pending" ∧
      (b.severity = .undefined → r.severity = .str "medium") ∧
      (b.coordinates = .undefined → r.coordinates = .str "") ∧
      (b.email = .undefined → r.email = .str "") ∧
      (b.phone = .undefined → r.phone = .str "") ∧
      r.createdAt = nowC ∧ r.updatedAt = nowU ∧
      (nowC = nowU → r.createdAt = r.updatedAt) := by
  refine ⟨mkReport nowId nowC nowU b,
    postReport_valid (by simp [validReportBody, h.1, h.2.1, h.2.2])
      nowId nowC nowU reports,
    rfl, ?_, ?_, ?_, ?_, rfl, rfl, fun he => he⟩
  all_goals intro hu
  all_goals simp [mkReport, mkReportFields, hu, jsOr, truthy]

/-- Witness for C1 amended at spec example 1, both stamps at instant 7. -/
theorem C1_amended_create_defaults_witness :
    ∃ r : Report,
      postReport 5 7 7 sampleReportBody [] =
        ((201, .messageRecord "Report submitted successfully" r), r :: []) ∧
      r.status = .str "pending" ∧
      (sampleReportBody.severity = .undefined → r.severity = .str "medium") ∧
      (sampleReportBody.coordinates = .undefined → r.coordinates = .str "") ∧
      (sampleReportBody.email = .undefined → r.email = .str "") ∧
      (sampleReportBody.phone = .undefined → r.phone = .str "") ∧
      r.createdAt = 7 ∧ r.updatedAt = 7 ∧
      (7 = 7 → r.createdAt = r.updatedAt) :=
  C1_amended_create_defaults 5 7 7 sampleReportBody [] (by decide)

/-- C2: a successful status update rewrites exactly the matched record's
`status` and `updatedAt` fields; every other field of that record, and every
other record of the collection, is preserved verbatim — in both the
file-backed and the document-store variant. -/
theorem C2_update_frame (now : Nat) (id : String) (s : JsValue)
    (reports db : List Report) :
    (∀ (u : Report) (reports' : List Report),
      putReport now id s reports =
        ((200, .messageRecord "Report updated successfully" u), reports') →
      ∃ pre r post, reports = pre ++ r :: post ∧
        u = { r with status := s, updatedAt := now } ∧
        reports' = pre ++ { r with status := s, updatedAt := now } :: post) ∧
    (∀ db' : List Report,
      mongoPutReport now id s db =
        ((200, .message "Report updated successfully"), db') →
      ∃ pre r post, db = pre ++ r :: post ∧
        db' = pre ++ { r with status := s, updatedAt := now } :: post) := by
  constructor
  · intro u reports' h
    by_cases hv : (!truthy s || !(allowedStatuses.contains s)) = true
    · rw [putReport, if_pos hv] at h
      simp at h
    · rw [putReport, if_neg hv] at h
      cases hm : updateFirst (fun r => r.id == id) (setStatus now s)
        reports with
      | none => rw [hm] at h; simp at h
      | some pr =>
        obtain ⟨u0, l'⟩ := pr
        rw [hm] at h
        simp at h
        obtain ⟨h1, h2⟩ := h
        subst h1
        subst h2
        obtain ⟨pre, r, post, hsplit, hu, hl⟩ := putCore_frame hm
        exact ⟨pre, r, post, hsplit, hu, hl⟩
  · intro db' h
    by_cases hv : (!truthy s || !(allowedStatuses.contains s)) = true
    · rw [mongoPutReport, if_pos hv] at h
      simp at h
    · rw [mongoPutReport, if_neg hv] at h
      cases hoid : isValidObjectId id with
      | false =>
        rw [if_pos (by simp [hoid])] at h
        simp at h
      | true =>
        rw [if_neg (by simp [hoid])] at h
        cases hm : updateFirst (fun r => r.id == id) (setStatus now s) db with
        | none => rw [hm] at h; simp at h
        | some pr =>
          obtain ⟨u0, l'⟩ := pr
          rw [hm] at h
          simp at h
          subst h
          obtain ⟨pre, r, post, hsplit, _, hl⟩ := putCore_frame hm
          exact ⟨pre, r, post, hsplit, hl⟩

/-- Witness for C2: updating the single stored report, in both variants. -/
theorem C2_update_frame_witness :
    (∃ pre r post,
      ([sampleStoredReport] : List Report) = pre ++ r :: post ∧
      setStatus 2 (.str "reviewed") sampleStoredReport =
        { r with status := .str "reviewed", updatedAt := 2 } ∧
      [setStatus 2 (.str "reviewed") sampleStoredReport] =
        pre ++ { r with status := .str "reviewed", updatedAt := 2 } :: post) ∧
    (∃ pre r post,
      ([sampleStoredReport] : List Report) = pre ++ r :: post ∧
      [setStatus 2 (.str "reviewed") sampleStoredReport] =
        pre ++ { r with status := .str "reviewed", updatedAt := 2 } :: post) :=
  ⟨(C2_update_frame 2 sampleOid (.str "reviewed")
      [sampleStoredReport] []).1 _ _ (by decide),
   (C2_update_frame 2 sampleOid (.str "reviewed") []
      [sampleStoredReport]).2 _ (by decide)⟩

/-- C3 counterexample: with the valid status `"resolved"` and the malformed
id `"x"` — no stored record has that id — the document-store handler
answers 500 `"Failed to update report"`, not the claimed 404: the
`new ObjectId("x")` constructor throws and the catch replies 500
(src/unnamed/part_000:114,128-131).  The store is left unchanged. -/
theorem C3_counterexample :
    mongoPutReport 7 "x" (.str "resolved") [sampleStoredReport] =
      ((500, .error "Failed to update report"), [sampleStoredReport]) ∧
    ((500, RespBody.error "Failed to update report") : Resp Report) ≠
      (404, .error "Report not found") := by
  decide

/-- C3 amended: an invalid or missing status answers 400 with the collection
unchanged in both variants; with a valid status, an id matching no record
answers 404 unchanged in the file-backed variant, and in the document-store
variant when the id is a well-formed ObjectId; a malformed id there makes
`new ObjectId` throw and the handler answers 500 `"Failed to update
report"`, also without mutation. -/
theorem C3_amended_put_errors (now : Nat) (id : String) (s : JsValue)
    (reports db : List Report) :
    (allowedStatuses.contains s = false →
      putReport now id s reports = ((400, .error "Invalid status"), reports) ∧
      mongoPutReport now id s db = ((400, .error "Invalid status"), db)) ∧
    (allowedStatuses.contains s = true →
      (∀ r ∈ reports, r.id ≠ id) → (∀ r ∈ db, r.id ≠ id) →
      putReport now id s reports =
        ((404, .error "Report not found"), reports) ∧
      (isValidObjectId id = true →
        mongoPutReport now id s db =
          ((404, .error "Report not found"), db))) ∧
    (allowedStatuses.contains s = true → isValidObjectId id = false →
      mongoPutReport now id s db =
        ((500, .error "Failed to update report"), db)) := by
  have hstat : allowedStatuses.contains s = true →
      ¬ (!truthy s || !(allowedStatuses.contains s)) = true := by
    intro hc
    have hmem : s ∈ allowedStatuses := by simpa using hc
    have hs : truthy s = true := by
      fin_cases hmem <;> decide
    rw [hc, hs]; simp
  refine ⟨?_, ?_, ?_⟩
  · intro hc
    have hcond : (!truthy s || !(allowedStatuses.contains s)) = true := by
      rw [hc]; simp
    constructor
    · rw [putReport, if_pos hcond]
    · rw [mongoPutReport, if_pos hcond]
  · intro hc hrep hdb
    constructor
    · rw [putReport, if_neg (hstat hc),
        updateFirst_none _ _ reports fun r hr => by simp [hrep r hr]]
    · intro hoid
      rw [mongoPutReport, if_neg (hstat hc), if_neg (by simp [hoid]),
        updateFirst_none _ _ db fun r hr => by simp [hdb r hr]]
  · intro hc hoid
    rw [mongoPutReport, if_neg (hstat hc), if_pos (by simp [hoid])]

/-- Witness for C3 amended: a bogus status, an unknown well-formed id and a
malformed id, on singleton stores. -/
theorem C3_amended_put_errors_witness :
    (putReport 7 "x" (.str "bogus") [mkReport 1 1 1 sampleReportBody] =
        ((400, .error "Invalid status"), [mkReport 1 1 1 sampleReportBody]) ∧
      mongoPutReport 7 "x" (.str "bogus") [sampleStoredReport] =
        ((400, .error "Invalid status"), [sampleStoredReport])) ∧
    (putReport 7 sampleOid2 (.str "reviewed") [mkReport 1 1 1 sampleReportBody] =
        ((404, .error "Report not found"), [mkReport 1 1 1 sampleReportBody]) ∧
      (isValidObjectId sampleOid2 = true →
        mongoPutReport 7 sampleOid2 (.str "reviewed") [sampleStoredReport] =
          ((404, .error "Report not found"), [sampleStoredReport]))) ∧
    (mongoPutReport 7 "x" (.str "reviewed") [sampleStoredReport] =
        ((500, .error "Failed to update report"), [sampleStoredReport])) :=
  ⟨⟨((C3_amended_put_errors 7 "x" (.str "bogus")
        [mkReport 1 1 1 sampleReportBody] [sampleStoredReport]).1
        (by decide)).1,
    ((C3_amended_put_errors 7 "x" (.str "bogus")
        [mkReport 1 1 1 sampleReportBody] [sampleStoredReport]).1
        (by decide)).2⟩,
   (C3_amended_put_errors 7 sampleOid2 (.str "reviewed")
      [mkReport 1 1 1 sampleReportBody] [sampleStoredReport]).2.1
      (by decide) (by decide) (by decide),
   (C3_amended_put_errors 7 "x" (.str "reviewed")
      [mkReport 1 1 1 sampleReportBody] [sampleStoredReport]).2.2
      (by decide) (by decide)⟩

/-- C4: after a sequence of successful inserts, the list endpoint returns
exactly those records newest-created-first — the file-backed variant because
each insert prepends, the document-store variant by its `createdAt`
descending sort (under strictly increasing creation instants). -/
theorem C4_list_newest_first (reqs : List CreateReq)
    (mreqs : List MongoCreateReq) :
    ((∀ q ∈ reqs, validReportBody q.body = true) →
      getReports (insertAll reqs []) =
        (200, .records
          ((reqs.map fun q => mkReport q.nowId q.nowC q.nowU q.body).reverse)) ∧
      (insertAll reqs []).length = reqs.length) ∧
    ((∀ q ∈ mreqs, validReportBody q.body = true) →
      mreqs.Pairwise (fun a b => a.nowC < b.nowC) →
      mongoGetReports (mongoInsertAll mreqs []) =
        (200, .records
          ((mreqs.map
            fun q => mkReportFields q.nowC q.nowU q.body q.oid).reverse)) ∧
      (mongoInsertAll mreqs []).length = mreqs.length) := by
  constructor
  · intro hv
    have he := insertAll_eq reqs [] hv
    constructor
    · rw [getReports, he]
      simp
    · rw [he]
      simp
  · intro hv hinc
    have he := mongoInsertAll_eq mreqs [] hv
    have hsorted : sortByCreatedDesc
        (mreqs.map fun q => mkReportFields q.nowC q.nowU q.body q.oid) =
        (mreqs.map fun q => mkReportFields q.nowC q.nowU q.body q.oid).reverse :=
      sortByCreatedDesc_increasing _ (List.pairwise_map.mpr hinc)
    constructor
    · rw [mongoGetReports, he]
      simp only [List.nil_append]
      rw [hsorted]
    · rw [he]
      simp

/-- Witness for C4: two inserts in each variant. -/
theorem C4_list_newest_first_witness :
    (getReports (insertAll
        [⟨1, 1, 1, sampleReportBody⟩, ⟨2, 2, 2, sampleReportBody2⟩] []) =
      (200, .records
        ((([⟨1, 1, 1, sampleReportBody⟩, ⟨2, 2, 2, sampleReportBody2⟩] :
            List CreateReq).map
          fun q => mkReport q.nowId q.nowC q.nowU q.body).reverse)) ∧
      (insertAll
        [⟨1, 1, 1, sampleReportBody⟩, ⟨2, 2, 2, sampleReportBody2⟩] []).length =
        ([⟨1, 1, 1, sampleReportBody⟩, ⟨2, 2, 2, sampleReportBody2⟩] :
          List CreateReq).length) ∧
    (mongoGetReports (mongoInsertAll
        [⟨sampleOid, 1, 1, sampleReportBody⟩,
          ⟨sampleOid2, 2, 2, sampleReportBody2⟩] []) =
      (200, .records
        ((([⟨sampleOid, 1, 1, sampleReportBody⟩,
            ⟨sampleOid2, 2, 2, sampleReportBody2⟩] :
            List MongoCreateReq).map
          fun q => mkReportFields q.nowC q.nowU q.body q.oid).reverse)) ∧
      (mongoInsertAll
        [⟨sampleOid, 1, 1, sampleReportBody⟩,
          ⟨sampleOid2, 2, 2, sampleReportBody2⟩] []).length =
        ([⟨sampleOid, 1, 1, sampleReportBody⟩,
          ⟨sampleOid2, 2, 2, sampleReportBody2⟩] :
          List MongoCreateReq).length) :=
  ⟨(C4_list_newest_first
      [⟨1, 1, 1, sampleReportBody⟩, ⟨2, 2, 2, sampleReportBody2⟩]
      [⟨sampleOid, 1, 1, sampleReportBody⟩,
        ⟨sampleOid2, 2, 2, sampleReportBody2⟩]).1 (by decide),
   (C4_list_newest_first
      [⟨1, 1, 1, sampleReportBody⟩, ⟨2, 2, 2, sampleReportBody2⟩]
      [⟨sampleOid, 1, 1, sampleReportBody⟩,
        ⟨sampleOid2, 2, 2, sampleReportBody2⟩]).2 (by decide) (by simp)⟩

/-- The Coordinate body refuting C5: `transparency` is the number `0`
(supplied, parseable), `temperature` is the truthy unparseable string
`"abc"`. -/
def c5body : CoordinateBody :=
  ⟨.str "Lake A", .str "44.5", .str "-73.2", .num (.val 0 0), .str "abc",
    .undefined, .undefined, .undefined, .undefined⟩

/-- C5 counterexample: on a valid create whose `transparency` is the number
`0` — supplied and parseable, `parseFloat` yields `0` — the stored value is
`null`, and whose `temperature` is the truthy unparseable string `"abc"` the
stored value is `NaN`, not `null`; both contradict the claim. -/
theorem C5_counterexample :
    (postCoordinate 7 7 7 c5body []).1 =
      (201, .messageRecord "Coordinates submitted successfully"
        (mkCoordinate 7 7 7 c5body)) ∧
    (mkCoordinate 7 7 7 c5body).transparency = .null ∧
    parseFloat c5body.transparency = .val 0 0 ∧
    JsValue.null ≠ JsValue.num (parseFloat c5body.transparency) ∧
    (mkCoordinate 7 7 7 c5body).temperature = .num .nan ∧
    JsValue.num JsNum.nan ≠ JsValue.null := by
  decide

/-- C5 amended: each optional measurement is stored as `null` exactly when
the input is falsy — absent, the empty string, or the number `0` — and
otherwise as its `parseFloat` value, which is `NaN` (not `null`) for a
truthy unparseable string; `pathogens` defaults to `"Unknown"` and
`description` to the empty string when absent. -/
theorem C5_amended_measurement_defaults (nowId nowC nowU : Nat)
    (b : CoordinateBody) (coordinates : List Coordinate)
    (h : truthy b.name = true ∧ truthy b.lat = true ∧ truthy b.lng = true) :
    ∃ c : Coordinate,
      postCoordinate nowId nowC nowU b coordinates =
        ((201, .messageRecord "Coordinates submitted successfully" c),
          c :: coordinates) ∧
      (b.transparency = .undefined → c.transparency = .null) ∧
      (b.transparency = .str "" → c.transparency = .null) ∧
      (∀ m k, b.transparency = .num (.val m k) → m = 0 →
        c.transparency = .null) ∧
      (∀ s : String, s ≠ "" → b.transparency = .str s →
        c.transparency = .num (parseFloatStr s)) ∧
      c.temperature =
        (if truthy b.temperature then .num (parseFloat b.temperature)
          else .null) ∧
      c.conductivity =
        (if truthy b.conductivity then .num (parseFloat b.conductivity)
          else .null) ∧
      c.waterlevel =
        (if truthy b.waterlevel then .num (parseFloat b.waterlevel)
          else .null) ∧
      (b.pathogens = .undefined → c.pathogens = .str "Unknown") ∧
      (b.description = .undefined → c.description = .str "") := by
  refine ⟨mkCoordinate nowId nowC nowU b,
    postCoordinate_valid (by simp [h.1, h.2.1, h.2.2])
      nowId nowC nowU coordinates,
    ?_, ?_, ?_, ?_, rfl, rfl, rfl, ?_, ?_⟩
  · intro hu
    simp [mkCoordinate, hu, truthy]
  · intro hu
    simp [mkCoordinate, hu, truthy]
  · intro m k hu hm
    simp [mkCoordinate, hu, hm, truthy]
  · intro s hs hu
    simp [mkCoordinate, hu, truthy, parseFloat, hs]
  · intro hu
    simp [mkCoordinate, hu, jsOr, truthy]
  · intro hu
    simp [mkCoordinate, hu, jsOr, truthy]

/-- Witness for C5 amended at spec example 5. -/
theorem C5_amended_witness :
    ∃ c : Coordinate,
      postCoordinate 7 7 7 sampleCoordinateBody [] =
        ((201, .messageRecord "Coordinates submitted successfully" c),
          c :: []) ∧
      (sampleCoordinateBody.transparency = .undefined →
        c.transparency = .null) ∧
      (sampleCoordinateBody.transparency = .str "" →
        c.transparency = .null) ∧
      (∀ m k, sampleCoordinateBody.transparency = .num (.val m k) → m = 0 →
        c.transparency = .null) ∧
      (∀ s : String, s ≠ "" → sampleCoordinateBody.transparency = .str s →
        c.transparency = .num (parseFloatStr s)) ∧
      c.temperature =
        (if truthy sampleCoordinateBody.temperature then
          .num (parseFloat sampleCoordinateBody.temperature) else .null) ∧
      c.conductivity =
        (if truthy sampleCoordinateBody.conductivity then
          .num (parseFloat sampleCoordinateBody.conductivity) else .null) ∧
      c.waterlevel =
        (if truthy sampleCoordinateBody.waterlevel then
          .num (parseFloat sampleCoordinateBody.waterlevel) else .null) ∧
      (sampleCoordinateBody.pathogens = .undefined →
        c.pathogens = .str "Unknown") ∧
      (sampleCoordinateBody.description = .undefined →
        c.description = .str "") :=
  C5_amended_measurement_defaults 7 7 7 sampleCoordinateBody [] (by decide)

/-- C6 counterexample: two creates within the same millisecond produce two
distinct records carrying the same id — the timestamp-string id scheme of
the file-backed variant collides within one clock tick. -/
theorem C6_counterexample :
    ∃ r1 r2 : Report,
      (postReport 5 5 5 sampleReportBody2
        (postReport 5 5 5 sampleReportBody []).2).2 = [r2, r1] ∧
      r1 ≠ r2 ∧ r1.id = r2.id := by
  refine ⟨mkReport 5 5 5 sampleReportBody, mkReport 5 5 5 sampleReportBody2,
    by decide, by decide, rfl⟩

/-- C6 amended: record ids are distinct whenever the creating clock readings
differ (two creates in the same millisecond collide, as the spec itself
flags); and an id never changes after creation — status updates preserve the
id sequence of the collection verbatim. -/
theorem C6_amended_id_unique (n1 n2 c1 u1 c2 u2 : Nat) (b1 b2 : ReportBody)
    (cb1 cb2 : CoordinateBody) (h : n1 ≠ n2) :
    (mkReport n1 c1 u1 b1).id ≠ (mkReport n2 c2 u2 b2).id ∧
    (mkCoordinate n1 c1 u1 cb1).id ≠ (mkCoordinate n2 c2 u2 cb2).id ∧
    (∀ (now : Nat) (id : String) (s : JsValue) (reports : List Report),
      (putReport now id s reports).2.map Report.id =
        reports.map Report.id) ∧
    (∀ (now : Nat) (id : String) (s : JsValue)
        (coordinates : List Coordinate),
      (putCoordinate now id s coordinates).2.map Coordinate.id =
        coordinates.map Coordinate.id) :=
  ⟨fun hc => h (natRepr_injective hc),
   fun hc => h (natRepr_injective hc),
   putReport_ids, putCoordinate_ids⟩

/-- Witness for C6 amended at two distinct instants. -/
theorem C6_amended_id_unique_witness :
    (mkReport 1 1 1 sampleReportBody).id ≠
      (mkReport 2 2 2 sampleReportBody2).id ∧
    (mkCoordinate 1 1 1 sampleCoordinateBody).id ≠
      (mkCoordinate 2 2 2 sampleCoordinateBody).id ∧
    (∀ (now : Nat) (id : String) (s : JsValue) (reports : List Report),
      (putReport now id s reports).2.map Report.id =
        reports.map Report.id) ∧
    (∀ (now : Nat) (id : String) (s : JsValue)
        (coordinates : List Coordinate),
      (putCoordinate now id s coordinates).2.map Coordinate.id =
        coordinates.map Coordinate.id) :=
  C6_amended_id_unique 1 2 1 1 2 2 sampleReportBody sampleReportBody2
    sampleCoordinateBody sampleCoordinateBody (by decide)

/-- C7 counterexample: in the document-store variant a successful status
update answers 200 with a bare `{message}` body — the updated record is not
in the response, contradicting the claim for that variant. -/
theorem C7_counterexample :
    (mongoPutReport 9 sampleOid (.str "reviewed")
      [sampleStoredReport]).1 =
      (200, .message "Report updated successfully") ∧
    ∀ u : Report,
      (RespBody.message "Report updated successfully" : RespBody Report) ≠
        .messageRecord "Report updated successfully" u := by
  refine ⟨by decide, ?_⟩
  intro u hc
  exact RespBody.noConfusion hc

/-- C7 amended: on a successful status update the file-backed variant's
response body carries the updated record (new status, refreshed
`updatedAt`, still a member of the stored collection), while the
document-store variant's response body is only a success message. -/
theorem C7_amended_put_response (now : Nat) (id : String) (s : JsValue)
    (reports db : List Report) :
    (∀ (resp : Resp Report) (reports' : List Report),
      putReport now id s reports = (resp, reports') → resp.1 = 200 →
      ∃ u : Report,
        resp.2 = .messageRecord "Report updated successfully" u ∧
        u ∈ reports' ∧ u.status = s ∧ u.updatedAt = now) ∧
    (∀ (resp : Resp Report) (db' : List Report),
      mongoPutReport now id s db = (resp, db') → resp.1 = 200 →
      resp.2 = .message "Report updated successfully") := by
  constructor
  · intro resp reports' h h200
    by_cases hv : (!truthy s || !(allowedStatuses.contains s)) = true
    · rw [putReport, if_pos hv] at h
      injection h with h1 h2
      subst h1
      simp at h200
    · rw [putReport, if_neg hv] at h
      cases hm : updateFirst (fun r => r.id == id) (setStatus now s)
        reports with
      | none =>
        rw [hm] at h
        injection h with h1 h2
        subst h1
        simp at h200
      | some pr =>
        obtain ⟨u0, l'⟩ := pr
        rw [hm] at h
        injection h with h1 h2
        subst h2
        obtain ⟨pre, r, post, _, hu, hl⟩ := putCore_frame hm
        refine ⟨u0, ?_, ?_, ?_, ?_⟩
        · rw [← h1]
        · rw [hl, hu]
          simp
        · rw [hu]
        · rw [hu]
  · intro resp db' h h200
    by_cases hv : (!truthy s || !(allowedStatuses.contains s)) = true
    · rw [mongoPutReport, if_pos hv] at h
      injection h with h1 h2
      subst h1
      simp at h200
    · rw [mongoPutReport, if_neg hv] at h
      cases hoid : isValidObjectId id with
      | false =>
        rw [if_pos (by simp [hoid])] at h
        injection h with h1 h2
        subst h1
        simp at h200
      | true =>
        rw [if_neg (by simp [hoid])] at h
        cases hm : updateFirst (fun r => r.id == id) (setStatus now s) db with
        | none =>
          rw [hm] at h
          injection h with h1 h2
          subst h1
          simp at h200
        | some pr =>
          obtain ⟨u0, l'⟩ := pr
          rw [hm] at h
          injection h with h1 h2
          rw [← h1]

/-- Witness for C7 amended: one stored report, updated in each variant. -/
theorem C7_amended_put_response_witness :
    (∃ u : Report,
      ((200 : Nat), RespBody.messageRecord "Report updated successfully"
        (setStatus 2 (.str "reviewed") (mkReport 1 1 1 sampleReportBody))).2 =
        .messageRecord "Report updated successfully" u ∧
      u ∈ [setStatus 2 (.str "reviewed") (mkReport 1 1 1 sampleReportBody)] ∧
      u.status = .str "reviewed" ∧ u.updatedAt = 2) ∧
    ((200 : Nat), RespBody.message (α := Report)
      "Report updated successfully").2 = .message "Report updated successfully" :=
  ⟨(C7_amended_put_response 2 (Nat.repr 1) (.str "reviewed")
      [mkReport 1 1 1 sampleReportBody] []).1
      (200, RespBody.messageRecord "Report updated successfully"
        (setStatus 2 (.str "reviewed") (mkReport 1 1 1 sampleReportBody)))
      [setStatus 2 (.str "reviewed") (mkReport 1 1 1 sampleReportBody)]
      (by decide) rfl,
   (C7_amended_put_response 2 sampleOid (.str "reviewed") []
      [sampleStoredReport]).2
      (200, RespBody.message "Report updated successfully")
      [setStatus 2 (.str "reviewed") sampleStoredReport]
      (by decide) rfl⟩

/-- The Coordinate body refuting C8: a truthy unparseable `transparency`
makes the API store `NaN`. -/
def c8body : CoordinateBody :=
  ⟨.str "Lake", .str "1", .str "2", .str "abc", .undefined, .undefined,
    .undefined, .undefined, .undefined⟩

/-- C8 counterexample: a record the API itself can store (its `transparency`
is `NaN`, from a truthy unparseable input) does not survive the write/read
round-trip — `JSON.stringify` writes `NaN` as `null`, so the value read back
differs. -/
theorem C8_counterexample :
    readDataCoordinates (writeDataCoordinates [mkCoordinate 3 3 3 c8body]) ≠
      [mkCoordinate 3 3 3 c8body] ∧
    (mkCoordinate 3 3 3 c8body).transparency = .num .nan ∧
    (parseCoordinateObj (stringifyCoordinate
      (mkCoordinate 3 3 3 c8body))).transparency = .null := by
  decide

/-- C8 amended: writing a collection and reading it back is the identity for
every sequence of records none of whose fields is `NaN` or an infinity; a
`NaN` or `Infinity` measurement (producible by the coordinates API from an
unparseable or overflowing truthy input) is written as `null` by
`JSON.stringify` and read back as `null`. -/
theorem C8_amended_roundtrip (rs : List Report) (cs : List Coordinate)
    (h1 : ∀ r ∈ rs, r.jsonFaithful) (h2 : ∀ c ∈ cs, c.jsonFaithful) :
    readDataReports (writeDataReports rs) = rs ∧
    readDataCoordinates (writeDataCoordinates cs) = cs :=
  ⟨readData_writeData_reports rs h1, readData_writeData_coordinates cs h2⟩

/-- Witness for C8 amended on singleton collections. -/
theorem C8_amended_roundtrip_witness :
    readDataReports (writeDataReports [mkReport 1 1 1 sampleReportBody]) =
      [mkReport 1 1 1 sampleReportBody] ∧
    readDataCoordinates (writeDataCoordinates
      [mkCoordinate 7 7 7 sampleCoordinateBody]) =
      [mkCoordinate 7 7 7 sampleCoordinateBody] :=
  C8_amended_roundtrip [mkReport 1 1 1 sampleReportBody]
    [mkCoordinate 7 7 7 sampleCoordinateBody] (by decide) (by decide)

/-- C9 counterexample: the file-backed health endpoint answers OK even when
the storage probe fails — its response does not depend on storage at all —
whereas the claim requires a distinct error status in both variants. -/
theorem C9_counterexample :
    fileHealth false = (200, "OK") ∧
    fileHealth false = fileHealth true ∧
    mongoHealth false ≠ (200, "OK") := by
  decide

/-- C9 amended: only the document-store variant probes storage on /health,
answering OK on a successful ping and a distinct 500 database error
otherwise; the file-backed variant answers OK unconditionally without
consulting storage. -/
theorem C9_amended_health (ok : Bool) :
    mongoHealth true = (200, "OK") ∧
    (mongoHealth false).1 = 500 ∧
    (mongoHealth false).2 = "Database Error" ∧
    fileHealth ok = (200, "OK") := by
  cases ok <;> decide

/-- C10: required-field validation is JS truthiness, not presence: a
coordinates request whose `lat` or `lng` is the number `0` or the empty
string is rejected with the missing-fields error and nothing is stored, and
likewise a reports request with an empty-string `type`, `location` or
`description`. -/
theorem C10_truthiness_validation (nowId nowC nowU : Nat)
    (cb : CoordinateBody) (b : ReportBody)
    (coordinates : List Coordinate) (reports : List Report) :
    ((cb.lat = .num (.val 0 0) ∨ cb.lat = .str "" ∨
        cb.lng = .num (.val 0 0) ∨ cb.lng = .str "") →
      postCoordinate nowId nowC nowU cb coordinates =
        ((400, .error "Missing required fields: name, lat, lng"),
          coordinates)) ∧
    ((b.type = .str "" ∨ b.location = .str "" ∨ b.description = .str "") →
      postReport nowId nowC nowU b reports =
        ((400, .error "Missing required fields"), reports)) := by
  constructor
  · intro h
    have hc : (!truthy cb.name || !truthy cb.lat || !truthy cb.lng) = true := by
      rcases h with h | h | h | h <;> simp [h, truthy]
    rw [postCoordinate, if_pos hc]
  · intro h
    have hc : (!truthy b.type || !truthy b.location ||
        !truthy b.description) = true := by
      rcases h with h | h | h <;> simp [h, truthy]
    rw [postReport, if_pos hc]

/-- Witness for C10: `lat` equal to the number 0; empty-string `type`. -/
theorem C10_truthiness_validation_witness :
    postCoordinate 3 3 3
      ⟨.str "Lake", .num (.val 0 0), .str "2", .undefined, .undefined,
        .undefined, .undefined, .undefined, .undefined⟩ [] =
      ((400, .error "Missing required fields: name, lat, lng"), []) ∧
    postReport 3 3 3
      ⟨.str "", .str "River X", .undefined, .str "oil sheen", .undefined,
        .undefined, .undefined⟩ [] =
      ((400, .error "Missing required fields"), []) :=
  ⟨(C10_truthiness_validation 3 3 3
      ⟨.str "Lake", .num (.val 0 0), .str "2", .undefined, .undefined,
        .undefined, .undefined, .undefined, .undefined⟩
      sampleReportBody [] []).1 (by decide),
   (C10_truthiness_validation 3 3 3 sampleCoordinateBody
      ⟨.str "", .str "River X", .undefined, .str "oil sheen", .undefined,
        .undefined, .undefined⟩ [] []).2 (by decide)⟩

example : truthy (.str "x") = true := by decide
example : parseFloatStr "44.5" = .val 445 1 := by decide
example : parseFloatStr "abc" = .nan := by decide
example : parseFloatStr "-73.2" = .val (-732) 1 := by decide
example : parseFloatStr "12" = .val 12 0 := by decide
example : parseFloatStr "1e3" = .val 1000 0 := by decide
example : parseFloatStr "2.5e-2" = .val 25 3 := by decide
example : parseFloatStr "Infinity" = .inf false := by decide
example : parseFloatStr "-Infinity" = .inf true := by decide
example : parseFloatStr "1e999" = .inf false := by decide
example : isValidObjectId "507f1f77bcf86cd799439011" = true := by decide
example : isValidObjectId "x" = false := by decide
example :
    (postReport 3 3 3 ⟨.str "spill", .str "River X", .undefined, .str "oil", .undefined, .undefined, .undefined⟩ []).1.1 = 201 := by
  decide
